import Mathlib

/-!
# WebQuery — verification of the connection-pool / risk-gated execution core

A shallow embedding, in Lean 4, of the parts of the WebQuery repository that
the specification's claims talk about:

* `database_provider/engine_cache.py` — the bounded LRU+TTL engine cache;
* `session/session_cache.py` — the encrypted, time-boxed credential cache;
* `query_execution/query_analyzer.py` — the risk classifier;
* `query_execution/services.py` — `QueryService.execute_query`;
* `workspaces/services.py` — `WorkspaceService.execute_workspace`.

Modelling conventions:

* Python `dict`s become association lists in insertion order (lookup finds
  the first matching key, assignment of a fresh key appends, `pop` removes).
* `datetime` values become `Int` timestamps in seconds; `timedelta(minutes=t)`
  becomes `t * 60`.
* Fallible external calls (the app database, the target database, the
  notification sink) become `Except String`-valued oracle fields of an
  environment record: `.ok` is a normal return, `.error e` is the call
  raising an exception with text `e`.  An `Except String` result of a
  modelled function likewise distinguishes a normal return (`.ok`) from an
  exception propagating to the caller (`.error`).
* A compiled regex is modelled by its `.search` predicate, an abstract
  `String → Bool`; the classifier's control flow is what is verified.
-/

namespace WebQuery

/-! ## Association-list model of Python dicts -/

/-- `d[k]` / `d.get(k)`: first binding of `k`, in insertion order. -/
def dictFind {κ α : Type} [BEq κ] (l : List (κ × α)) (k : κ) : Option α :=
  (l.find? (fun kv => kv.1 == k)).map Prod.snd

/-- `d[k] = v`: replace in place if the key is present, else append. -/
def dictInsert {κ α : Type} [BEq κ] (l : List (κ × α)) (k : κ) (v : α) :
    List (κ × α) :=
  match l with
  | [] => [(k, v)]
  | kv :: rest => if kv.1 == k then (k, v) :: rest else kv :: dictInsert rest k v

/-- `d.pop(k)`: remove the binding of `k` (the first one, if any). -/
def dictErase {κ α : Type} [BEq κ] (l : List (κ × α)) (k : κ) : List (κ × α) :=
  List.eraseP (fun kv => kv.1 == k) l

/-! ## Engine cache (`database_provider/engine_cache.py`) -/

/-- The observable face of a SQLAlchemy engine: what
`engine.sync_engine.pool.checkedout()` reports.  `none` models the call
raising (the `except` branch of `_is_engine_active`). -/
structure Engine where
  checkedout : Option Nat
deriving Repr, DecidableEq

/-- `EngineCacheEntry`: cached engine plus metadata. -/
structure EngineCacheEntry where
  engine : Engine
  last_accessed : Int
  owner_id : Option Int
deriving Repr, DecidableEq

/-- `EngineCache` state: `_cache` (a dict in insertion order), `_max_engines`,
the `_stats` counters and the `_running` flag. -/
structure EngineCache where
  cache : List (String × EngineCacheEntry)
  max_engines : Nat
  engine_count : Int
  request_count : Int
  running : Bool
deriving Repr, DecidableEq

/-- `EngineCache.__init__`. -/
def emptyEngineCache (max_engines : Nat) : EngineCache :=
  { cache := [], max_engines := max_engines, engine_count := 0,
    request_count := 0, running := false }

/-- `_is_engine_active`: `pool.checkedout() > 0`, `False` if the probe raises. -/
def is_engine_active (e : Engine) : Bool :=
  match e.checkedout with
  | some n => decide (0 < n)
  | none => false

/-- `min(keys, key=lambda k: d[k].last_accessed)` over a dict in iteration
order: Python's `min` keeps the first element among ties. -/
def minByLastAccessed : List (String × EngineCacheEntry) →
    Option (String × EngineCacheEntry)
  | [] => none
  | kv :: rest =>
      some (rest.foldl
        (fun acc x => if x.2.last_accessed < acc.2.last_accessed then x else acc)
        kv)

/-- What one `_evict_lru` pass did. -/
structure EvictOutcome where
  state : EngineCache
  evicted_key : String
  evicted_entry : EngineCacheEntry
  /-- `true` on the `WARNING: Cache full & all active` branch. -/
  forced : Bool
deriving Repr, DecidableEq

/-- `_evict_lru`: pick the least-recently-accessed idle entry; if every entry
is active, force-pick the globally least-recently-accessed one (logging a
warning); pop it, dispose the engine and decrement the counter.  `none`
models the `ValueError` of `min` on an empty cache. -/
def evictLRU (c : EngineCache) : Option EvictOutcome :=
  let idle := c.cache.filter (fun kv => !(is_engine_active kv.2.engine))
  match minByLastAccessed idle with
  | some kv =>
      some { state := { c with cache := dictErase c.cache kv.1,
                               engine_count := c.engine_count - 1 },
             evicted_key := kv.1, evicted_entry := kv.2, forced := false }
  | none =>
      match minByLastAccessed c.cache with
      | some kv =>
          some { state := { c with cache := dictErase c.cache kv.1,
                                   engine_count := c.engine_count - 1 },
                 evicted_key := kv.1, evicted_entry := kv.2, forced := true }
      | none => none

/-- Refresh `last_accessed` of the binding of `k` (a cache hit). -/
def touchEntry (l : List (String × EngineCacheEntry)) (k : String) (now : Int) :
    List (String × EngineCacheEntry) :=
  l.map (fun kv => if kv.1 == k then (kv.1, { kv.2 with last_accessed := now }) else kv)

/-- `get_engine`, applied to the already-hashed key (`_hash_key` is an
uninterpreted digest supplied by the caller).  `none` models an exception
escaping (only possible from the eviction pass); the state is then
unchanged, since `_evict_lru` mutates nothing before `min` succeeds. -/
def get_engine (c : EngineCache) (hash_key : String) (owner_id : Option Int)
    (now : Int) : Option (EngineCache × Engine) :=
  match dictFind c.cache hash_key with
  | some entry =>
      some ({ c with cache := touchEntry c.cache hash_key now,
                     request_count := c.request_count + 1 }, entry.engine)
  | none =>
      let afterEvict : Option EngineCache :=
        if (c.max_engines : Int) ≤ c.engine_count then
          (evictLRU c).map EvictOutcome.state
        else some c
      match afterEvict with
      | none => none
      | some c1 =>
          let engine : Engine := { checkedout := some 0 }
          let entry : EngineCacheEntry :=
            { engine := engine, last_accessed := now, owner_id := owner_id }
          some ({ c1 with cache := dictInsert c1.cache hash_key entry,
                          engine_count := c1.engine_count + 1,
                          request_count := c1.request_count + 1 }, engine)

/-- Is the entry stale and idle, i.e. selected by one `_loop` sweep? -/
def sweepSelects (now time_interval : Int) (kv : String × EngineCacheEntry) : Bool :=
  decide (time_interval < now - kv.2.last_accessed) && !is_engine_active kv.2.engine

/-- One iteration of the `_loop` body under the lock: when below capacity,
pop every stale idle entry and decrement the counter per pop. -/
def ttlSweep (c : EngineCache) (now time_interval : Int) : EngineCache :=
  if c.engine_count < (c.max_engines : Int) then
    let stale := c.cache.filter (sweepSelects now time_interval)
    { c with cache := c.cache.filter (fun kv => !sweepSelects now time_interval kv),
             engine_count := c.engine_count - stale.length }
  else c

/-- `close_user_engines`: pop every idle entry owned by `user_id`
(`if not user_id: return` makes id `0` a no-op, like `None`). -/
def close_user_engines (c : EngineCache) (user_id : Int) : EngineCache :=
  if user_id == 0 then c
  else
    let owned := fun (kv : String × EngineCacheEntry) =>
      kv.2.owner_id == some user_id && !is_engine_active kv.2.engine
    let togo := c.cache.filter owned
    { c with cache := c.cache.filter (fun kv => !owned kv),
             engine_count := c.engine_count - togo.length }

/-- `start_loop`. -/
def start_loop (c : EngineCache) : EngineCache :=
  if c.running then c else { c with running := true }

/-- `stop_loop`: when running, cancel the task, dispose everything, clear the
dict and zero the counter. -/
def stop_loop (c : EngineCache) : EngineCache :=
  if c.running then { c with running := false, cache := [], engine_count := 0 }
  else c

/-- One `get_engine` call of an acquisition sequence. -/
structure AcquireCall where
  hash_key : String
  owner_id : Option Int
  now : Int
deriving Repr, DecidableEq

/-- Run a sequence of `get_engine` calls; a call that raises leaves the
state unchanged (the cache object outlives the exception). -/
def runAcquires (c : EngineCache) : List AcquireCall → EngineCache
  | [] => c
  | a :: rest =>
      let c1 := match get_engine c a.hash_key a.owner_id a.now with
        | some (c2, _) => c2
        | none => c
      runAcquires c1 rest

/-! ## Session cache (`session/session_cache.py`) -/

/-- A Fernet instance, seen through its two operations. -/
structure Fernet where
  encrypt : String → String
  decrypt : String → String

/-- One value of the `session_cache` dict:
`{"user_password": encrypted, "addition_time": datetime}`. -/
structure SessionEntry where
  user_password : String
  addition_time : Int
deriving Repr, DecidableEq

/-- `SessionCache` state. -/
structure SessionCache where
  session_cache : List (Int × SessionEntry)
  fernet_instance : Option Fernet

/-- `add_to_cache`: encrypt and store with the current time;
`RuntimeError` when no Fernet instance is set. -/
def SessionCache.add_to_cache (s : SessionCache) (now : Int) (password : String)
    (user_id : Int) : Except String SessionCache :=
  match s.fernet_instance with
  | none => .error "RuntimeError: Fernet instance is not initialized"
  | some f =>
      let sub : SessionEntry :=
        { user_password := f.encrypt password, addition_time := now }
      .ok { s with session_cache := dictInsert s.session_cache user_id sub }

/-- `get_password`: decrypt the stored password; `RuntimeError` when no
Fernet instance, `KeyError` when the user has no cache entry.  Note that it
performs no expiry check of its own. -/
def SessionCache.get_password (s : SessionCache) (user_id : Int) :
    Except String String :=
  match s.fernet_instance with
  | none => .error "RuntimeError: Fernet instance is not initialized"
  | some f =>
      match dictFind s.session_cache user_id with
      | none => .error "KeyError"
      | some info => .ok (f.decrypt info.user_password)

/-- `remove`: safe removal. -/
def SessionCache.removeUser (s : SessionCache) (user_id : Int) : SessionCache :=
  { s with session_cache := dictErase s.session_cache user_id }

/-- `is_valid`: `False` for a missing entry; when
`now - addition_time > timeout_minutes * 60` the entry is removed and the
result is `False`; otherwise `True`.  Returns the (possibly purged) state. -/
def SessionCache.is_valid (s : SessionCache) (now : Int) (user_id : Int)
    (timeout_minutes : Int) : SessionCache × Bool :=
  match dictFind s.session_cache user_id with
  | none => (s, false)
  | some info =>
      let timeout := timeout_minutes * 60
      if timeout < now - info.addition_time then (s.removeUser user_id, false)
      else (s, true)

/-! ## Risk classifier (`query_execution/query_analyzer.py`) -/

/-- `QueryAnalyzer`: the four ordered pattern groups built in `__init__`,
each compiled pattern abstracted to its `.search` predicate. -/
structure QueryAnalyzer where
  sql_injection_patterns : List (String → Bool)
  ddl_patterns : List (String → Bool)
  risky_patterns : List (String → Bool)
  performance_patterns : List (String → Bool)

/-- The dict returned by `analyze`; `canRun` models the `"return"` key. -/
structure AnalysisResult where
  risk_type : Option String
  canRun : Bool
deriving Repr, DecidableEq

/-- `QueryAnalyzer.analyze`: strip the query, then try the groups top to
bottom, returning at the first group with a matching pattern. -/
def QueryAnalyzer.analyze (a : QueryAnalyzer) (query : String) : AnalysisResult :=
  let q := query.trim
  if a.sql_injection_patterns.any (fun p => p q) then
    { risk_type := some "sql_injection_risk", canRun := false }
  else if a.ddl_patterns.any (fun p => p q) then
    { risk_type := some "ddl_pattern", canRun := false }
  else if a.risky_patterns.any (fun p => p q) then
    { risk_type := some "risky_pattern", canRun := false }
  else if a.performance_patterns.any (fun p => p q) then
    { risk_type := some "performance_risk", canRun := false }
  else
    { risk_type := none, canRun := true }

/-! ## Shared response shape -/

/-- One fetched row, `dict(row._mapping)`. -/
abbrev Row := List (String × String)

/-- The response dict of the execution paths. -/
structure SQLResponse where
  response_type : String
  data : List Row
  message : Option String
  error : Option String
deriving Repr, DecidableEq

/-- `{"response_type": "error", "data": [], "error": msg}`. -/
def errorResponse (msg : String) : SQLResponse :=
  { response_type := "error", data := [], message := none, error := some msg }

/-- The caller of an execution path. -/
structure User where
  id : Int
  username : String
  password : String
  is_admin : Bool
deriving Repr, DecidableEq

/-! ## `QueryService.execute_query` (`query_execution/services.py`)

Every awaited external call is an oracle field: `.ok` is a normal return,
`.error e` the call raising with text `e`. -/

/-- Oracles for one `execute_query` run. -/
structure QueryEnv where
  /-- `app_db.create_log(...)`, yielding the log handle. -/
  create_log : Except String Nat
  /-- `app_db.update_log(log_id, successfull=False, error=error_msg)`
  in the rejection branch. -/
  update_log_reject : Except String Unit
  /-- the `QueryData` + `Workspace` persistence block (session, flushes,
  commit). -/
  save_approval : Except String Unit
  /-- `notification_service.send_approval_notifivation(...)`. -/
  notify : Except String Unit
  /-- opening the target-database session, `session.execute` and
  `fetchmany(size=MAX_ROW_COUNT_LIMIT)` — the fetched rows. -/
  db_exec : Except String (List Row)
  /-- `update_log(log_id, successfull=True, row_count=...)`. -/
  update_log_success : Except String Unit
  /-- `update_log(log_id, successfull=False, error=str(e))` inside the
  outer `except` handler, as a function of the handled error text. -/
  update_log_on_error : String → Except String Unit

/-- The persisted `QueryData` record. -/
structure QueryDataRec where
  user_id : Int
  servername : String
  database_name : String
  query : String
  status : String
deriving Repr, DecidableEq

/-- The persisted `Workspace` record. -/
structure WorkspaceRec where
  user_id : Int
  name : String
  description : String
  show_results : Option Bool
deriving Repr, DecidableEq

/-- What one `execute_query` call did: its return-or-raise, whether the
target database was reached, and the approval pair it persisted. -/
structure QueryExecOutcome where
  result : Except String SQLResponse
  executed_on_target : Bool
  created : Option (QueryDataRec × WorkspaceRec)
deriving Repr

/-- How Python renders `query_analysis['risk_type']` in an f-string. -/
def riskTypeStr (qa : AnalysisResult) : String :=
  match qa.risk_type with
  | some r => r
  | none => "None"

/-- `f"Pending: {query[:50]}..." if len(query) > 50 else f"Pending: {query}"`. -/
def pendingName (query : String) : String :=
  if 50 < query.length then "Pending: " ++ (query.take 50) ++ "..."
  else "Pending: " ++ query

/-- `QueryService.execute_query`, with `limit = MAX_ROW_COUNT_LIMIT`.
A `.error` result is an exception propagating to the caller. -/
def execute_query (env : QueryEnv) (analyzer : QueryAnalyzer) (limit : Nat)
    (query : String) (user : User) (server_name database_name : String) :
    QueryExecOutcome :=
  match env.create_log with
  | .error e =>
      -- outer except with `log_id` still `None`: no log update, error dict
      { result := .ok (errorResponse e), executed_on_target := false, created := none }
  | .ok _log_id =>
      let qa := analyzer.analyze query
      if !qa.canRun && !user.is_admin then
        let error_msg := "Query rejected: " ++ riskTypeStr qa
        match env.update_log_reject with
        | .error e =>
            -- outer except with `log_id` set: try the failure log update
            (match env.update_log_on_error e with
             | .ok _ => { result := .ok (errorResponse e),
                          executed_on_target := false, created := none }
             | .error e2 => { result := .error e2,
                              executed_on_target := false, created := none })
        | .ok _ =>
            let created : Option (QueryDataRec × WorkspaceRec) :=
              match env.save_approval with
              | .ok _ =>
                  some ({ user_id := user.id, servername := server_name,
                          database_name := database_name, query := query,
                          status := "waiting_for_approval" },
                        { user_id := user.id, name := pendingName query,
                          description := "Risk Type: "
                            ++ (qa.risk_type.getD "UNKNOWN")
                            ++ " - Waiting for admin approval",
                          show_results := none })
              | .error _ => none  -- inner except: printed, not propagated
            -- the notification attempt is wrapped in its own try/except;
            -- its outcome (env.notify) never alters the result
            { result := .ok (errorResponse (error_msg
                ++ ". Query saved to your workspaces and sent for admin approval.")),
              executed_on_target := false, created := created }
      else
        match env.db_exec with
        | .error e =>
            (match env.update_log_on_error e with
             | .ok _ => { result := .ok (errorResponse e),
                          executed_on_target := true, created := none }
             | .error e2 => { result := .error e2,
                              executed_on_target := true, created := none })
        | .ok fetched =>
            let rows := fetched.take limit  -- fetchmany returns ≤ limit rows
            let row_count := rows.length
            let rows2 := if limit < row_count then rows.take limit else rows
            let message :=
              if limit < row_count then
                toString row_count ++ " rows found, showing first " ++ toString limit
              else toString row_count ++ " rows affected"
            match env.update_log_success with
            | .error e =>
                (match env.update_log_on_error e with
                 | .ok _ => { result := .ok (errorResponse e),
                              executed_on_target := true, created := none }
                 | .error e2 => { result := .error e2,
                                  executed_on_target := true, created := none })
            | .ok _ =>
                { result := .ok { response_type := "data", data := rows2,
                                  message := some message, error := none },
                  executed_on_target := true, created := none }

/-! ## `WorkspaceService.execute_workspace` (`workspaces/services.py`) -/

/-- A row of the `Workspaces` table, as read by `execute_workspace`. -/
structure WsWorkspace where
  id : Int
  user_id : Int
  name : String
  description : String
  query_id : Option Int
  show_results : Option Bool
deriving Repr, DecidableEq

/-- A row of the `QueryData` table. -/
structure WsQueryData where
  id : Int
  user_id : Int
  servername : String
  database_name : String
  query : String
  status : String
deriving Repr, DecidableEq

/-- Oracles for one `execute_workspace` run. -/
structure WsEnv where
  /-- `app_db.create_log(..., approved_execution=True)`; `.ok` carries `log.id`. -/
  create_log : Except String Nat
  /-- target-database session, `execute` and `fetchmany` — the fetched rows. -/
  db_exec : Except String (List Row)
  /-- `update_log(log_id, successfull=True, row_count=...)`. -/
  update_log_success : Except String Unit
  /-- `update_log(log_id, successfull=False, error=str(e))` in the `except`
  handler, as a function of the handled error text. -/
  update_log_on_error : String → Except String Unit

/-- One completed `update_log` invocation (the ExecutionLog finalization). -/
structure LogUpdate where
  log_id : Nat
  successfull : Bool
  error : Option String
  row_count : Option Nat
deriving Repr, DecidableEq

/-- What one `execute_workspace` call did.  `query_datas` is the `QueryData`
table as the call leaves it, so status changes (or their absence) are
observable. -/
structure WsExecOutcome where
  result : Except String SQLResponse
  executed_on_target : Bool
  query_datas : List WsQueryData
  session : SessionCache
  log_updates : List LogUpdate

/-- The `try` block of `execute_workspace` past the approval gate:
`create_log`, target-database execution, truncation, log finalization and
the `except` handler.  (It reads none of the loaded records — the query
text, server and database go to the `db_exec` oracle.) -/
def execute_workspace_run (env : WsEnv) (query_datas : List WsQueryData)
    (sc1 : SessionCache) (limit : Nat) : WsExecOutcome :=
  match env.create_log with
  | .error e =>
      -- except with log_id (= None) falsy: no log update
      { result := .ok (errorResponse e),
        executed_on_target := false, query_datas := query_datas,
        session := sc1, log_updates := [] }
  | .ok log_id =>
      match env.db_exec with
      | .error e =>
          (match env.update_log_on_error e with
           | .ok _ =>
               { result := .ok (errorResponse e),
                 executed_on_target := true,
                 query_datas := query_datas, session := sc1,
                 log_updates := [⟨log_id, false, some e, none⟩] }
           | .error e2 =>
               { result := .error e2, executed_on_target := true,
                 query_datas := query_datas, session := sc1,
                 log_updates := [] })
      | .ok fetched =>
          let rows := fetched.take limit
          let row_count := rows.length
          let rows2 :=
            if limit < row_count then rows.take limit else rows
          let message :=
            if limit < row_count then
              "Truncated to MAX_ROW_COUNT_LIMIT ("
                ++ toString limit ++ ")"
            else toString row_count ++ " rows affected"
          match env.update_log_success with
          | .error e =>
              (match env.update_log_on_error e with
               | .ok _ =>
                   { result := .ok (errorResponse e),
                     executed_on_target := true,
                     query_datas := query_datas, session := sc1,
                     log_updates := [⟨log_id, false, some e, none⟩] }
               | .error e2 =>
                   { result := .error e2,
                     executed_on_target := true,
                     query_datas := query_datas, session := sc1,
                     log_updates := [] })
          | .ok _ =>
              let resp : SQLResponse :=
                { response_type := "data", data := rows2,
                  message := some message, error := none }
              { result := .ok resp,
                executed_on_target := true,
                query_datas := query_datas, session := sc1,
                log_updates := [⟨log_id, true, none, some row_count⟩] }

/-- `WorkspaceService.execute_workspace`, with `limit = MAX_ROW_COUNT_LIMIT`
and `session_timeout = auth config SESSION_TIMEOUT` (minutes). -/
def execute_workspace (env : WsEnv) (workspaces : List WsWorkspace)
    (query_datas : List WsQueryData) (sc : SessionCache) (now : Int)
    (session_timeout : Int) (limit : Nat) (current_user : User)
    (workspace_id : Int) : WsExecOutcome :=
  -- session validation (any exception here yields "Session password error")
  let v := sc.is_valid now current_user.id session_timeout
  let sc1 := v.1
  if v.2 then
    match sc1.get_password current_user.id with
    | .error _ =>
        { result := .ok (errorResponse "Session password error"),
          executed_on_target := false, query_datas := query_datas,
          session := sc1, log_updates := [] }
    | .ok _plain_pw =>
        -- load workspace and query
        match workspaces.find? (fun w => w.id == workspace_id) with
        | none =>
            { result := .ok (errorResponse "Workspace not found"),
              executed_on_target := false, query_datas := query_datas,
              session := sc1, log_updates := [] }
        | some workspace =>
            match query_datas.find? (fun q => workspace.query_id == some q.id) with
            | none =>
                { result := .ok (errorResponse "Query data not found"),
                  executed_on_target := false, query_datas := query_datas,
                  session := sc1, log_updates := [] }
            | some query_data =>
                -- enforce approval
                if !(workspace.show_results.getD false)
                    || query_data.status != "approved_with_results" then
                  { result := .ok (errorResponse
                      "This workspace is not approved for execution"),
                    executed_on_target := false, query_datas := query_datas,
                    session := sc1, log_updates := [] }
                else
                  execute_workspace_run env query_datas sc1 limit
  else
    { result := .ok (errorResponse "Session expired"),
      executed_on_target := false, query_datas := query_datas,
      session := sc1, log_updates := [] }

/-! ## Concrete instances used by witnesses and counterexamples -/

/-- An engine whose pool reports one outstanding checked-out connection. -/
def activeEngine : Engine := { checkedout := some 1 }

/-- An engine whose pool reports no outstanding connections. -/
def idleEngine : Engine := { checkedout := some 0 }

/-- An old entry whose engine is active. -/
def entryActiveOld : EngineCacheEntry :=
  { engine := activeEngine, last_accessed := 0, owner_id := none }

/-- A newer entry whose engine is idle. -/
def entryIdleNew : EngineCacheEntry :=
  { engine := idleEngine, last_accessed := 5, owner_id := some 2 }

/-- A full cache whose only entry is active. -/
def cacheAllActive : EngineCache :=
  { cache := [("k1", entryActiveOld)], max_engines := 1, engine_count := 1,
    request_count := 0, running := false }

/-- A cache holding an older active entry and a newer idle one. -/
def cacheMixed : EngineCache :=
  { cache := [("k1", entryActiveOld), ("k2", entryIdleNew)], max_engines := 2,
    engine_count := 2, request_count := 0, running := true }

/-- A Fernet whose operations are the identity (legitimate: encryption is
orthogonal to the cache logic under verification). -/
def fernetPlain : Fernet := { encrypt := fun s => s, decrypt := fun s => s }

/-- A fresh session cache with a live Fernet instance. -/
def sessionEmptyF : SessionCache :=
  { session_cache := [], fernet_instance := some fernetPlain }

/-- The session cache right after `add_to_cache("hunter2", 1)` at time 0. -/
def sessionStored : SessionCache :=
  { session_cache := [(1, { user_password := "hunter2", addition_time := 0 })],
    fernet_instance := some fernetPlain }

/-- An analyzer with one injection pattern and one performance pattern that
both match every query. -/
def analyzerBoth : QueryAnalyzer :=
  { sql_injection_patterns := [fun _ => true],
    ddl_patterns := [], risky_patterns := [],
    performance_patterns := [fun _ => true] }

/-- An analyzer none of whose groups contains any pattern. -/
def analyzerNone : QueryAnalyzer :=
  { sql_injection_patterns := [], ddl_patterns := [], risky_patterns := [],
    performance_patterns := [] }

/-- A non-admin user. -/
def userNonAdmin : User :=
  { id := 1, username := "alice", password := "pw", is_admin := false }

/-- `execute_query` oracles in which every external call succeeds. -/
def envAllOk : QueryEnv :=
  { create_log := .ok 1, update_log_reject := .ok (), save_approval := .ok (),
    notify := .ok (), db_exec := .ok [], update_log_success := .ok (),
    update_log_on_error := fun _ => .ok () }

/-- `execute_query` oracles in which the target database raises and the
failure-path log update raises as well. -/
def envLogsDown : QueryEnv :=
  { create_log := .ok 1, update_log_reject := .ok (), save_approval := .ok (),
    notify := .ok (), db_exec := .error "target database down",
    update_log_success := .ok (),
    update_log_on_error := fun _ => .error "app db down" }

/-- `execute_workspace` oracles in which the target database raises
(`"deadlock detected"`) and log calls succeed. -/
def wsEnvDbFail : WsEnv :=
  { create_log := .ok 7, db_exec := .error "deadlock detected",
    update_log_success := .ok (), update_log_on_error := fun _ => .ok () }

/-- `execute_workspace` oracles in which every external call succeeds. -/
def wsEnvAllOk : WsEnv :=
  { create_log := .ok 7, db_exec := .ok [], update_log_success := .ok (),
    update_log_on_error := fun _ => .ok () }

/-- An approved-with-results workspace pointing at query record 20. -/
def wsApproved : WsWorkspace :=
  { id := 10, user_id := 1, name := "ws", description := "",
    query_id := some 20, show_results := some true }

/-- Query record 20 with status `approved_with_results`. -/
def qdApprovedWith : WsQueryData :=
  { id := 20, user_id := 1, servername := "srv", database_name := "db",
    query := "SELECT 1", status := "approved_with_results" }

/-- Query record 20 with status `approved` (approved without result
visibility). -/
def qdApprovedOnly : WsQueryData :=
  { id := 20, user_id := 1, servername := "srv", database_name := "db",
    query := "SELECT 1", status := "approved" }

/-! ## Supporting lemmas: the dict model -/

theorem dictFind_dictInsert_self {κ α : Type} [BEq κ] [LawfulBEq κ]
    (l : List (κ × α)) (k : κ) (v : α) :
    dictFind (dictInsert l k v) k = some v := by
  induction l with
  | nil => simp [dictInsert, dictFind, List.find?]
  | cons kv rest ih =>
      by_cases h : kv.1 == k
      · simp [dictInsert, h, dictFind, List.find?]
      · simpa [dictInsert, h, dictFind, List.find?] using ih

theorem mem_keys_dictInsert {κ α : Type} [BEq κ] [LawfulBEq κ]
    (l : List (κ × α)) (k x : κ) (v : α) :
    x ∈ (dictInsert l k v).map Prod.fst ↔ x ∈ l.map Prod.fst ∨ x = k := by
  induction l with
  | nil => simp [dictInsert]
  | cons kv rest ih =>
      by_cases h : kv.1 == k
      · have hk : kv.1 = k := by simpa using h
        simp [dictInsert, h, hk]
        tauto
      · simp [dictInsert, h, ih]
        tauto

theorem nodup_keys_dictInsert {κ α : Type} [BEq κ] [LawfulBEq κ]
    (l : List (κ × α)) (k : κ) (v : α) (h : (l.map Prod.fst).Nodup) :
    ((dictInsert l k v).map Prod.fst).Nodup := by
  induction l with
  | nil => simp [dictInsert]
  | cons kv rest ih =>
      rw [List.map_cons, List.nodup_cons] at h
      by_cases hk : kv.1 == k
      · have hkk : kv.1 = k := by simpa using hk
        simp only [dictInsert, hk, if_pos]
        simp [List.nodup_cons, ← hkk, h.1, h.2]
      · simp only [dictInsert, hk, if_neg, Bool.false_eq_true, not_false_iff]
        rw [List.map_cons, List.nodup_cons]
        refine ⟨?_, ih h.2⟩
        rw [mem_keys_dictInsert]
        rintro (hmem | hek)
        · exact h.1 hmem
        · exact absurd (by simp [hek]) hk

theorem dictFind_eq_none_of_not_mem_keys {κ α : Type} [BEq κ] [LawfulBEq κ]
    (l : List (κ × α)) (k : κ) (h : k ∉ l.map Prod.fst) :
    dictFind l k = none := by
  unfold dictFind
  simp only [Option.map_eq_none', List.find?_eq_none]
  intro kv hmem hbeq
  exact h (by simp only [List.mem_map]; exact ⟨kv, hmem, by simpa using hbeq⟩)

theorem dictFind_dictErase_self {κ α : Type} [BEq κ] [LawfulBEq κ]
    (l : List (κ × α)) (k : κ) (h : (l.map Prod.fst).Nodup) :
    dictFind (dictErase l k) k = none := by
  induction l with
  | nil => simp [dictErase, dictFind, List.find?]
  | cons kv rest ih =>
      rw [List.map_cons, List.nodup_cons] at h
      by_cases hk : kv.1 == k
      · have hkk : kv.1 = k := by simpa using hk
        simp only [dictErase, List.eraseP_cons, hk]
        exact dictFind_eq_none_of_not_mem_keys rest k (hkk ▸ h.1)
      · simp only [dictErase, List.eraseP_cons, hk]
        simpa [dictFind, List.find?, hk] using ih h.2

theorem dictFind_eq_none_iff_dictInsert_append {κ α : Type} [BEq κ]
    (l : List (κ × α)) (k : κ) (v : α) (h : dictFind l k = none) :
    dictInsert l k v = l ++ [(k, v)] := by
  induction l with
  | nil => simp [dictInsert]
  | cons kv rest ih =>
      unfold dictFind at h ih
      simp only [Option.map_eq_none', List.find?_eq_none] at h
      have hk : ¬ (kv.1 == k) = true := h kv (by simp)
      simp only [dictInsert, hk, if_neg, Bool.false_eq_true, not_false_iff,
        List.cons_append, List.cons.injEq, true_and]
      apply ih
      simp only [Option.map_eq_none', List.find?_eq_none]
      intro x hx
      exact h x (by simp [hx])

theorem length_dictInsert_of_fresh {κ α : Type} [BEq κ]
    (l : List (κ × α)) (k : κ) (v : α) (h : dictFind l k = none) :
    (dictInsert l k v).length = l.length + 1 := by
  rw [dictFind_eq_none_iff_dictInsert_append l k v h]
  simp

/-! ## Supporting lemmas: filters and the LRU minimum -/

theorem length_filter_add_length_filter_not {α : Type} (l : List α) (p : α → Bool) :
    (l.filter p).length + (l.filter (fun a => !p a)).length = l.length := by
  induction l with
  | nil => rfl
  | cons x xs ih => by_cases h : p x <;> simp [List.filter, h] <;> omega

/-- The fold inside `minByLastAccessed` returns its accumulator or a list
element. -/
theorem foldl_minLA_mem (l : List (String × EngineCacheEntry))
    (acc : String × EngineCacheEntry) :
    l.foldl (fun a x => if x.2.last_accessed < a.2.last_accessed then x else a) acc
      = acc
    ∨ l.foldl (fun a x => if x.2.last_accessed < a.2.last_accessed then x else a) acc
      ∈ l := by
  induction l generalizing acc with
  | nil => left; rfl
  | cons y rest ih =>
      rcases ih (if y.2.last_accessed < acc.2.last_accessed then y else acc) with h | h
      · rw [List.foldl_cons, h]
        by_cases hy : y.2.last_accessed < acc.2.last_accessed
        · right; simp [hy]
        · left; simp [hy]
      · right
        rw [List.foldl_cons]
        exact List.mem_cons_of_mem y h

/-- The fold inside `minByLastAccessed` never exceeds its accumulator. -/
theorem foldl_minLA_le_acc (l : List (String × EngineCacheEntry))
    (acc : String × EngineCacheEntry) :
    (l.foldl (fun a x => if x.2.last_accessed < a.2.last_accessed then x else a)
      acc).2.last_accessed ≤ acc.2.last_accessed := by
  induction l generalizing acc with
  | nil => exact le_refl _
  | cons y rest ih =>
      rw [List.foldl_cons]
      refine le_trans (ih _) ?_
      by_cases hy : y.2.last_accessed < acc.2.last_accessed
      · simpa [hy] using le_of_lt hy
      · simp [hy]

/-- The fold inside `minByLastAccessed` is a lower bound of the list. -/
theorem foldl_minLA_le_mem (l : List (String × EngineCacheEntry))
    (acc : String × EngineCacheEntry) (x : String × EngineCacheEntry)
    (hx : x ∈ l) :
    (l.foldl (fun a y => if y.2.last_accessed < a.2.last_accessed then y else a)
      acc).2.last_accessed ≤ x.2.last_accessed := by
  induction l generalizing acc with
  | nil => cases hx
  | cons y rest ih =>
      rw [List.foldl_cons]
      rcases List.mem_cons.mp hx with rfl | hx'
      · refine le_trans (foldl_minLA_le_acc _ _) ?_
        by_cases hy : x.2.last_accessed < acc.2.last_accessed
        · simp [hy]
        · simpa [hy] using le_of_not_lt hy
      · exact ih _ hx'

/-- `minByLastAccessed` picks an element that is minimal for `last_accessed`
(Python's `min` with a key function). -/
theorem minByLastAccessed_spec (l : List (String × EngineCacheEntry))
    (kv : String × EngineCacheEntry) (h : minByLastAccessed l = some kv) :
    kv ∈ l ∧ ∀ x ∈ l, kv.2.last_accessed ≤ x.2.last_accessed := by
  match l with
  | [] => cases h
  | y :: rest =>
      simp only [minByLastAccessed, Option.some.injEq] at h
      subst h
      constructor
      · rcases foldl_minLA_mem rest y with h | h
        · rw [h]; exact List.mem_cons_self _ _
        · exact List.mem_cons_of_mem y h
      · intro x hx
        rcases List.mem_cons.mp hx with rfl | hx'
        · exact foldl_minLA_le_acc rest x
        · exact foldl_minLA_le_mem rest y x hx'

/-- `minByLastAccessed` fails exactly on the empty dict (`min` raising
`ValueError`). -/
theorem minByLastAccessed_eq_none_iff (l : List (String × EngineCacheEntry)) :
    minByLastAccessed l = none ↔ l = [] := by
  cases l <;> simp [minByLastAccessed]

/-! ## Supporting lemmas: eviction and the cache counters -/

/-- Unfolding of a successful `_evict_lru` pass: the state update, and which
branch selected the victim. -/
theorem evictLRU_cases (c : EngineCache) (o : EvictOutcome)
    (ho : evictLRU c = some o) :
    o.state = { c with cache := dictErase c.cache o.evicted_key,
                       engine_count := c.engine_count - 1 }
    ∧ ((minByLastAccessed
          (c.cache.filter (fun kv => !(is_engine_active kv.2.engine)))
          = some (o.evicted_key, o.evicted_entry) ∧ o.forced = false)
       ∨ (c.cache.filter (fun kv => !(is_engine_active kv.2.engine)) = []
          ∧ minByLastAccessed c.cache = some (o.evicted_key, o.evicted_entry)
          ∧ o.forced = true)) := by
  simp only [evictLRU] at ho
  rcases hmin : minByLastAccessed
      (c.cache.filter (fun kv => !(is_engine_active kv.2.engine))) with _ | kv
  · rw [hmin] at ho
    rcases hmin2 : minByLastAccessed c.cache with _ | kv2
    · rw [hmin2] at ho; cases ho
    · rw [hmin2] at ho
      injection ho with ho
      subst ho
      exact ⟨rfl, Or.inr ⟨(minByLastAccessed_eq_none_iff _).mp hmin,
        by simp [hmin2], rfl⟩⟩
  · rw [hmin] at ho
    injection ho with ho
    subst ho
    exact ⟨rfl, Or.inl ⟨by simp [hmin], rfl⟩⟩

/-- A successful `_evict_lru` pass evicts an entry of the cache. -/
theorem evictLRU_mem (c : EngineCache) (o : EvictOutcome)
    (ho : evictLRU c = some o) :
    (o.evicted_key, o.evicted_entry) ∈ c.cache := by
  rcases (evictLRU_cases c o ho).2 with ⟨hmin, -⟩ | ⟨-, hmin, -⟩
  · exact (List.mem_filter.mp (minByLastAccessed_spec _ _ hmin).1).1
  · exact (minByLastAccessed_spec _ _ hmin).1

/-- A successful `_evict_lru` pass removes exactly one entry. -/
theorem evictLRU_length (c : EngineCache) (o : EvictOutcome)
    (ho : evictLRU c = some o) :
    o.state.cache.length + 1 = c.cache.length := by
  have hmem := evictLRU_mem c o ho
  have hstate := (evictLRU_cases c o ho).1
  rw [hstate]
  exact List.length_eraseP_add_one hmem (by simp)

/-- `_evict_lru` only fails on an empty cache. -/
theorem evictLRU_isSome (c : EngineCache) (h : c.cache ≠ []) :
    ∃ o, evictLRU c = some o := by
  simp only [evictLRU]
  rcases hmin : minByLastAccessed
      (c.cache.filter (fun kv => !(is_engine_active kv.2.engine))) with _ | kv
  · rcases hmin2 : minByLastAccessed c.cache with _ | kv2
    · exact absurd ((minByLastAccessed_eq_none_iff _).mp hmin2) h
    · exact ⟨_, rfl⟩
  · exact ⟨_, rfl⟩

/-- `_evict_lru` decrements the engine counter and preserves the rest of
the bookkeeping fields. -/
theorem evictLRU_fields (c : EngineCache) (o : EvictOutcome)
    (ho : evictLRU c = some o) :
    o.state.engine_count = c.engine_count - 1
    ∧ o.state.max_engines = c.max_engines := by
  rw [(evictLRU_cases c o ho).1]
  exact ⟨rfl, rfl⟩

/-- Erasure keeps absent keys absent. -/
theorem dictFind_eraseP_none {κ α : Type} [BEq κ] (l : List (κ × α))
    (p : κ × α → Bool) (k : κ) (h : dictFind l k = none) :
    dictFind (l.eraseP p) k = none := by
  unfold dictFind at h ⊢
  simp only [Option.map_eq_none', List.find?_eq_none] at h ⊢
  intro x hx
  exact h x ((List.eraseP_sublist l).mem hx)

/-- A cache hit only refreshes a timestamp; the length is unchanged. -/
theorem length_touchEntry (l : List (String × EngineCacheEntry)) (k : String)
    (now : Int) : (touchEntry l k now).length = l.length :=
  List.length_map _ _

/-! ## Claim C6 — classifier precedence -/

/-- **C6.** `QueryAnalyzer.analyze` evaluates the pattern groups top to
bottom with first-match-wins precedence
injection > DDL > unscoped-mutation > performance (first conjunct, the full
precedence characterization over the stripped query); in particular a query
matching both an injection and a performance pattern is classified
`sql_injection_risk` (second conjunct), and a query matching no pattern at
all is classified safe, `risk_type = None` and `return = True` (third
conjunct). -/
theorem C6_analyze_precedence (a : QueryAnalyzer) (query : String) :
    (a.analyze query =
      if a.sql_injection_patterns.any (fun p => p query.trim) then
        { risk_type := some "sql_injection_risk", canRun := false }
      else if a.ddl_patterns.any (fun p => p query.trim) then
        { risk_type := some "ddl_pattern", canRun := false }
      else if a.risky_patterns.any (fun p => p query.trim) then
        { risk_type := some "risky_pattern", canRun := false }
      else if a.performance_patterns.any (fun p => p query.trim) then
        { risk_type := some "performance_risk", canRun := false }
      else { risk_type := none, canRun := true })
    ∧ (a.sql_injection_patterns.any (fun p => p query.trim) = true →
       a.performance_patterns.any (fun p => p query.trim) = true →
       a.analyze query = { risk_type := some "sql_injection_risk", canRun := false })
    ∧ ((a.sql_injection_patterns.any (fun p => p query.trim)
        || a.ddl_patterns.any (fun p => p query.trim)
        || a.risky_patterns.any (fun p => p query.trim)
        || a.performance_patterns.any (fun p => p query.trim)) = false →
       a.analyze query = { risk_type := none, canRun := true }) := by
  refine ⟨rfl, ?_, ?_⟩
  · intro h1 _h2
    simp [QueryAnalyzer.analyze, h1]
  · intro h
    simp only [Bool.or_eq_false_iff] at h
    simp [QueryAnalyzer.analyze, h.1.1.1, h.1.1.2, h.1.2, h.2]

/-- Witness for C6: on `analyzerBoth` the query `"attack"` matches an
injection pattern and a performance pattern and classifies as injection;
on `analyzerNone` everything is safe. -/
theorem C6_analyze_precedence_witness :
    analyzerBoth.analyze "attack"
      = { risk_type := some "sql_injection_risk", canRun := false }
    ∧ analyzerNone.analyze "attack" = { risk_type := none, canRun := true } :=
  ⟨(C6_analyze_precedence analyzerBoth "attack").2.1 (by decide) (by decide),
   (C6_analyze_precedence analyzerNone "attack").2.2 (by decide)⟩

/-! ## Claim C5 — credential TTL -/

/-- **C5, counterexample.** The claim says `isValid` turns false once
elapsed time is `≥ t` minutes, and that every `get_password` fetch of an
expired entry fails with NotFound.  In the state reached by
`add_to_cache("hunter2", 1)` at time 0 (= `sessionStored`), at exactly
`t = 5` minutes (300 s) `is_valid` still returns `True` (the code uses a
strict `>` comparison), and `get_password` — which never checks expiry —
happily returns the stale password at any later time as long as no
`is_valid` call has purged the entry. -/
theorem C5_ttl_counterexample :
    SessionCache.add_to_cache sessionEmptyF 0 "hunter2" 1
      = Except.ok sessionStored
    ∧ (SessionCache.is_valid sessionStored 300 1 5).2 = true
    ∧ SessionCache.get_password sessionStored 1 = Except.ok "hunter2" :=
  ⟨rfl, rfl, rfl⟩

/-- **C5, amended.** After `store` (`add_to_cache`) at time `now` for user
`u`, `isValid(u, t)` is true immediately (for `0 ≤ t`); once elapsed time
is *strictly greater than* `t` minutes, `is_valid` returns false and purges
the entry, and a fetch performed after that purging `is_valid` call fails
closed with `KeyError` (NotFound) rather than returning the stale
password. -/
theorem C5_ttl_amended (s : SessionCache) (f : Fernet) (now : Int)
    (pw : String) (u t : Int) (s1 : SessionCache)
    (hnodup : (s.session_cache.map Prod.fst).Nodup)
    (hf : s.fernet_instance = some f)
    (hadd : s.add_to_cache now pw u = Except.ok s1)
    (ht : 0 ≤ t) :
    (s1.is_valid now u t).2 = true
    ∧ ∀ now2 : Int, t * 60 < now2 - now →
        (s1.is_valid now2 u t).2 = false
        ∧ dictFind ((s1.is_valid now2 u t).1.session_cache) u = none
        ∧ SessionCache.get_password ((s1.is_valid now2 u t).1) u
            = Except.error "KeyError" := by
  rw [SessionCache.add_to_cache, hf] at hadd
  injection hadd with hadd
  subst hadd
  have hfind :
      dictFind (dictInsert s.session_cache u
        { user_password := f.encrypt pw, addition_time := now }) u
      = some { user_password := f.encrypt pw, addition_time := now } :=
    dictFind_dictInsert_self _ _ _
  have hnodup1 :
      ((dictInsert s.session_cache u
        { user_password := f.encrypt pw, addition_time := now }).map Prod.fst).Nodup :=
    nodup_keys_dictInsert _ _ _ hnodup
  constructor
  · rw [SessionCache.is_valid]
    simp only [hfind]
    rw [if_neg (by omega : ¬ (t * 60 < now - now))]
  · intro now2 hexp
    have hval : SessionCache.is_valid
        { session_cache := dictInsert s.session_cache u
            { user_password := f.encrypt pw, addition_time := now },
          fernet_instance := some f } now2 u t
        = (SessionCache.removeUser
            { session_cache := dictInsert s.session_cache u
                { user_password := f.encrypt pw, addition_time := now },
              fernet_instance := some f } u, false) := by
      rw [SessionCache.is_valid]
      simp only [hfind]
      rw [if_pos hexp]
    rw [hval]
    refine ⟨rfl, ?_, ?_⟩
    · exact dictFind_dictErase_self _ u hnodup1
    · rw [SessionCache.get_password]
      simp only [SessionCache.removeUser]
      rw [dictFind_dictErase_self _ u hnodup1]

/-- Witness for C5 (amended): concrete run from the empty cache, stored at
time 0, checked at 301 s with a 5-minute timeout. -/
theorem C5_ttl_amended_witness :
    (sessionStored.is_valid 0 1 5).2 = true
    ∧ (sessionStored.is_valid 301 1 5).2 = false
    ∧ dictFind ((sessionStored.is_valid 301 1 5).1.session_cache) 1 = none
    ∧ SessionCache.get_password ((sessionStored.is_valid 301 1 5).1) 1
        = Except.error "KeyError" := by
  have h := C5_ttl_amended sessionEmptyF fernetPlain 0 "hunter2" 1 5
    sessionStored (by simp [sessionEmptyF]) rfl rfl (by omega)
  have h2 := h.2 301 (by omega)
  exact ⟨h.1, h2.1, h2.2.1, h2.2.2⟩

/-! ## Claim C8 — eviction policy -/

/-- **C8.** On a non-empty cache, `_evict_lru` succeeds and removes exactly
one entry; when at least one entry is idle, the victim is an idle entry
with the oldest `last_accessed` among the idle ones (no warning); when no
entry is idle, the victim has the globally oldest `last_accessed` and the
forced-eviction warning is logged. -/
theorem C8_evict_lru_policy (c : EngineCache) (h : c.cache ≠ []) :
    ∃ o, evictLRU c = some o
      ∧ o.state.cache.length + 1 = c.cache.length
      ∧ (c.cache.filter (fun kv => !(is_engine_active kv.2.engine)) ≠ [] →
          (o.evicted_key, o.evicted_entry)
            ∈ c.cache.filter (fun kv => !(is_engine_active kv.2.engine))
          ∧ (∀ kv ∈ c.cache.filter (fun kv => !(is_engine_active kv.2.engine)),
              o.evicted_entry.last_accessed ≤ kv.2.last_accessed)
          ∧ o.forced = false)
      ∧ (c.cache.filter (fun kv => !(is_engine_active kv.2.engine)) = [] →
          (o.evicted_key, o.evicted_entry) ∈ c.cache
          ∧ (∀ kv ∈ c.cache, o.evicted_entry.last_accessed ≤ kv.2.last_accessed)
          ∧ o.forced = true) := by
  obtain ⟨o, ho⟩ := evictLRU_isSome c h
  refine ⟨o, ho, evictLRU_length c o ho, ?_, ?_⟩
  · intro hne
    rcases (evictLRU_cases c o ho).2 with ⟨hmin, hforced⟩ | ⟨hempty, -, -⟩
    · obtain ⟨hmem, hle⟩ := minByLastAccessed_spec _ _ hmin
      exact ⟨hmem, fun kv hkv => hle kv hkv, hforced⟩
    · exact absurd hempty hne
  · intro hempty
    rcases (evictLRU_cases c o ho).2 with ⟨hmin, -⟩ | ⟨-, hmin, hforced⟩
    · rw [hempty] at hmin
      cases ((minByLastAccessed_eq_none_iff ([] :
        List (String × EngineCacheEntry))).mpr rfl).symm.trans hmin
    · obtain ⟨hmem, hle⟩ := minByLastAccessed_spec _ _ hmin
      exact ⟨hmem, fun kv hkv => hle kv hkv, hforced⟩

/-- Witness for C8: the two-entry cache `cacheMixed` is non-empty, and the
eviction pass on it succeeds. -/
theorem C8_evict_lru_policy_witness :
    cacheMixed.cache ≠ [] ∧ (evictLRU cacheMixed).isSome = true := by
  have h : cacheMixed.cache ≠ [] := by decide
  obtain ⟨o, ho, -, -, -⟩ := C8_evict_lru_policy cacheMixed h
  exact ⟨h, by rw [ho]; rfl⟩

/-! ## Claim C2 — no eviction of in-use entries -/

/-- **C2, counterexample.** The claim says an entry with outstanding
checked-out connections is *never* selected by `_evict_lru`.  But on
`cacheAllActive`, whose only entry `"k1"` reports `checkedout() = 1`,
`_evict_lru` force-evicts exactly that active entry (with the warning
flag set). -/
theorem C2_no_evict_active_counterexample :
    is_engine_active entryActiveOld.engine = true
    ∧ (evictLRU cacheAllActive).map
        (fun o => (o.evicted_key, o.evicted_entry, o.forced))
      = some ("k1", entryActiveOld, true) :=
  ⟨rfl, rfl⟩

/-- **C2, amended.** An entry with outstanding checked-out connections is
never disposed by the TTL sweep, and is never selected by `_evict_lru`
*as long as at least one idle entry exists*; only when every entry is
active does the forced eviction select a (necessarily active) entry. -/
theorem C2_no_evict_active_amended (c : EngineCache)
    (kv : String × EngineCacheEntry) (hmem : kv ∈ c.cache)
    (hact : is_engine_active kv.2.engine = true) :
    (∀ now ti : Int, kv ∈ (ttlSweep c now ti).cache)
    ∧ (∀ kv0, kv0 ∈ c.cache → is_engine_active kv0.2.engine = false →
        ∀ o, evictLRU c = some o →
          is_engine_active o.evicted_entry.engine = false ∧ o.forced = false) := by
  constructor
  · intro now ti
    rw [ttlSweep]
    split
    · exact List.mem_filter.mpr ⟨hmem, by simp [sweepSelects, hact]⟩
    · exact hmem
  · intro kv0 hmem0 hidle0 o ho
    rcases (evictLRU_cases c o ho).2 with ⟨hmin, hforced⟩ | ⟨hempty, -, -⟩
    · obtain ⟨hmemf, -⟩ := minByLastAccessed_spec _ _ hmin
      exact ⟨by simpa using (List.mem_filter.mp hmemf).2, hforced⟩
    · exact absurd hempty (by
        intro habs
        have : kv0 ∈ c.cache.filter (fun kv => !(is_engine_active kv.2.engine)) :=
          List.mem_filter.mpr ⟨hmem0, by simp [hidle0]⟩
        rw [habs] at this
        cases this)

/-- Witness for C2 (amended): in `cacheMixed` the active entry `"k1"`
survives a TTL sweep, and the eviction pass selects an idle victim. -/
theorem C2_no_evict_active_amended_witness :
    ("k1", entryActiveOld) ∈ (ttlSweep cacheMixed 10 1).cache
    ∧ (evictLRU cacheMixed).map (fun o => is_engine_active o.evicted_entry.engine)
      = some false := by
  have h := C2_no_evict_active_amended cacheMixed ("k1", entryActiveOld)
    (by decide) rfl
  refine ⟨h.1 10 1, ?_⟩
  rcases hev : evictLRU cacheMixed with _ | o
  · exact absurd hev (by decide)
  · have h2 := (h.2 ("k2", entryIdleNew) (by decide) rfl o hev).1
    rw [Option.map_some', h2]

/-! ## Claim C9 — counter/map agreement -/

/-- **C9.** If `_stats["engine_count"]` agrees with the number of cached
entries, then it still agrees after each `EngineCache` operation:
`get_engine` (whose capacity check reads exactly this counter),
`_evict_lru`, one TTL sweep iteration, `close_user_engines`, and
`stop_loop`. -/
theorem C9_stats_engine_count (c : EngineCache)
    (hinv : c.engine_count = (c.cache.length : Int)) :
    (∀ k oid now c' e, get_engine c k oid now = some (c', e) →
        c'.engine_count = (c'.cache.length : Int))
    ∧ (∀ o, evictLRU c = some o →
        o.state.engine_count = (o.state.cache.length : Int))
    ∧ (∀ now ti, (ttlSweep c now ti).engine_count
        = (((ttlSweep c now ti).cache.length : Nat) : Int))
    ∧ (∀ uid, (close_user_engines c uid).engine_count
        = (((close_user_engines c uid).cache.length : Nat) : Int))
    ∧ (stop_loop c).engine_count = (((stop_loop c).cache.length : Nat) : Int) := by
  have hevict : ∀ o, evictLRU c = some o →
      o.state.engine_count = (o.state.cache.length : Int) := by
    intro o ho
    have hlen := evictLRU_length c o ho
    have hcount := (evictLRU_fields c o ho).1
    omega
  refine ⟨?_, hevict, ?_, ?_, ?_⟩
  · intro k oid now c' e h
    rw [get_engine] at h
    rcases hfind : dictFind c.cache k with _ | entry
    · rw [hfind] at h
      simp only at h
      rcases hcap : decide ((c.max_engines : Int) ≤ c.engine_count) with _ | _
      · rw [if_neg (by simpa using hcap)] at h
        injection h with h
        have h1 := congrArg Prod.fst h
        simp only at h1
        subst h1
        simp only [length_dictInsert_of_fresh c.cache k _ hfind]
        omega
      · rw [if_pos (by simpa using hcap)] at h
        rcases hev : evictLRU c with _ | o
        · rw [hev] at h; cases h
        · rw [hev] at h
          rw [Option.map_some'] at h
          injection h with h
          have h1 := congrArg Prod.fst h
          simp only at h1
          subst h1
          have hfresh : dictFind o.state.cache k = none := by
            rw [(evictLRU_cases c o hev).1]
            exact dictFind_eraseP_none c.cache _ k hfind
          simp only [length_dictInsert_of_fresh o.state.cache k _ hfresh]
          have := hevict o hev
          omega
    · rw [hfind] at h
      injection h with h
      have h1 := congrArg Prod.fst h
      simp only at h1
      subst h1
      simp only [length_touchEntry]
      omega
  · intro now ti
    rw [ttlSweep]
    split
    · have := length_filter_add_length_filter_not c.cache (sweepSelects now ti)
      dsimp only
      omega
    · exact hinv
  · intro uid
    rw [close_user_engines]
    split
    · exact hinv
    · have := length_filter_add_length_filter_not c.cache
        (fun kv => kv.2.owner_id == some uid && !is_engine_active kv.2.engine)
      dsimp only
      omega
  · rw [stop_loop]
    split
    · rfl
    · exact hinv

/-- Witness for C9: the counter of `cacheMixed` agrees with its map, and
the agreement survives a sweep and `stop_loop`. -/
theorem C9_stats_engine_count_witness :
    cacheMixed.engine_count = (cacheMixed.cache.length : Int)
    ∧ (ttlSweep cacheMixed 10 1).engine_count
        = ((ttlSweep cacheMixed 10 1).cache.length : Int)
    ∧ (stop_loop cacheMixed).engine_count
        = ((stop_loop cacheMixed).cache.length : Int) := by
  have hinv : cacheMixed.engine_count = (cacheMixed.cache.length : Int) := by decide
  have h := C9_stats_engine_count cacheMixed hinv
  exact ⟨hinv, h.2.2.1 10 1, h.2.2.2.2⟩

/-! ## Claim C3 — cache bound -/

/-- One `get_engine` call preserves counter/map agreement, the capacity
bound, and the configured maximum. -/
theorem runAcquires_step_inv (c : EngineCache) (a : AcquireCall)
    (hinv : c.engine_count = (c.cache.length : Int))
    (hbound : c.cache.length ≤ c.max_engines) :
    let c1 := match get_engine c a.hash_key a.owner_id a.now with
      | some (c2, _) => c2
      | none => c
    c1.engine_count = (c1.cache.length : Int)
    ∧ c1.cache.length ≤ c1.max_engines
    ∧ c1.max_engines = c.max_engines := by
  rcases hget : get_engine c a.hash_key a.owner_id a.now with _ | ce
  · exact ⟨hinv, hbound, rfl⟩
  · obtain ⟨c2, e⟩ := ce
    simp only
    rw [get_engine] at hget
    rcases hfind : dictFind c.cache a.hash_key with _ | entry
    · rw [hfind] at hget
      simp only at hget
      rcases hcap : decide ((c.max_engines : Int) ≤ c.engine_count) with _ | _
      · rw [if_neg (by simpa using hcap)] at hget
        injection hget with hget
        have h1 := congrArg Prod.fst hget
        simp only at h1
        subst h1
        have hlt : c.cache.length < c.max_engines := by
          have := of_decide_eq_false hcap
          omega
        refine ⟨?_, ?_, rfl⟩
        · simp only [length_dictInsert_of_fresh c.cache a.hash_key _ hfind]
          omega
        · show (dictInsert c.cache a.hash_key _).length ≤ c.max_engines
          rw [length_dictInsert_of_fresh c.cache a.hash_key _ hfind]
          omega
      · rw [if_pos (by simpa using hcap)] at hget
        rcases hev : evictLRU c with _ | o
        · rw [hev] at hget; cases hget
        · rw [hev] at hget
          rw [Option.map_some'] at hget
          injection hget with hget
          have h1 := congrArg Prod.fst hget
          simp only at h1
          subst h1
          have hfresh : dictFind o.state.cache a.hash_key = none := by
            rw [(evictLRU_cases c o hev).1]
            exact dictFind_eraseP_none c.cache _ a.hash_key hfind
          have hlen := evictLRU_length c o hev
          have hmax : o.state.max_engines = c.max_engines :=
            (evictLRU_fields c o hev).2
          have hcnt : o.state.engine_count = c.engine_count - 1 :=
            (evictLRU_fields c o hev).1
          refine ⟨?_, ?_, hmax⟩
          · have hoinv : o.state.engine_count = (o.state.cache.length : Int) := by
              omega
            simp only [length_dictInsert_of_fresh o.state.cache a.hash_key _ hfresh]
            omega
          · show (dictInsert o.state.cache a.hash_key _).length ≤ o.state.max_engines
            rw [length_dictInsert_of_fresh o.state.cache a.hash_key _ hfresh]
            omega
    · rw [hfind] at hget
      injection hget with hget
      have h1 := congrArg Prod.fst hget
      simp only at h1
      subst h1
      refine ⟨?_, ?_, rfl⟩
      · simp only [length_touchEntry]
        omega
      · show (touchEntry c.cache a.hash_key a.now).length ≤ c.max_engines
        rw [length_touchEntry]
        exact hbound

/-- **C3.** Starting from an empty cache configured with maximum
`max_engines = m`, after every finite sequence of `get_engine` calls (and
hence after each individual call, taking prefixes) the number of cached
engine entries never exceeds `m`. -/
theorem C3_cache_bound (m : Nat) (calls : List AcquireCall) :
    (runAcquires (emptyEngineCache m) calls).cache.length ≤ m := by
  suffices h : ∀ (calls : List AcquireCall) (c : EngineCache),
      c.engine_count = (c.cache.length : Int) →
      c.cache.length ≤ c.max_engines →
      (runAcquires c calls).cache.length ≤ (runAcquires c calls).max_engines
      ∧ (runAcquires c calls).max_engines = c.max_engines by
    obtain ⟨hb, hm⟩ := h calls (emptyEngineCache m) (by simp [emptyEngineCache])
      (by simp [emptyEngineCache])
    rw [hm] at hb
    simpa [emptyEngineCache] using hb
  intro calls
  induction calls with
  | nil => intro c hinv hbound; exact ⟨hbound, rfl⟩
  | cons a rest ih =>
      intro c hinv hbound
      obtain ⟨h1, h2, h3⟩ := runAcquires_step_inv c a hinv hbound
      rw [runAcquires]
      obtain ⟨hb, hm⟩ := ih _ h1 h2
      exact ⟨hb, hm.trans h3⟩

/-! ## Claim C7 — risky queries are routed for approval -/

/-- **C7.** A query classified risky, submitted by a non-admin, is never
executed against the target database (so no rows are returned), a
`QueryData` record with status `waiting_for_approval` is created together
with its paired `Workspace` record (provided the app-database writes
succeed), and the response is an error dict with empty data whose text ends
by stating the query was saved and sent for admin approval. -/
theorem C7_risky_sent_for_approval (env : QueryEnv) (analyzer : QueryAnalyzer)
    (limit : Nat) (query : String) (user : User)
    (server_name database_name : String) (lid : Nat)
    (hrisky : (analyzer.analyze query).canRun = false)
    (hadmin : user.is_admin = false)
    (hcl : env.create_log = Except.ok lid)
    (hur : env.update_log_reject = Except.ok ())
    (hsave : env.save_approval = Except.ok ()) :
    (execute_query env analyzer limit query user server_name
        database_name).executed_on_target = false
    ∧ (∃ pre, (execute_query env analyzer limit query user server_name
          database_name).result
        = Except.ok (errorResponse
            (pre ++ ". Query saved to your workspaces and sent for admin approval.")))
    ∧ (∃ qd ws, (execute_query env analyzer limit query user server_name
          database_name).created = some (qd, ws)
        ∧ qd.status = "waiting_for_approval" ∧ qd.query = query
        ∧ qd.user_id = user.id ∧ ws.user_id = user.id) := by
  rw [execute_query, hcl]
  dsimp only
  rw [if_pos (by rw [hrisky, hadmin]; rfl), hur, hsave]
  exact ⟨rfl,
    ⟨"Query rejected: " ++ riskTypeStr (analyzer.analyze query), rfl⟩,
    ⟨_, _, rfl, rfl, rfl, rfl, rfl⟩⟩

/-- Witness for C7: the always-matching analyzer flags `"SELECT 1"` for
`userNonAdmin`, every app-database oracle of `envAllOk` succeeds. -/
theorem C7_risky_sent_for_approval_witness :
    (execute_query envAllOk analyzerBoth 1000 "SELECT 1" userNonAdmin "srv"
        "db").executed_on_target = false
    ∧ (∃ pre, (execute_query envAllOk analyzerBoth 1000 "SELECT 1" userNonAdmin
          "srv" "db").result
        = Except.ok (errorResponse
            (pre ++ ". Query saved to your workspaces and sent for admin approval.")))
    ∧ (∃ qd ws, (execute_query envAllOk analyzerBoth 1000 "SELECT 1" userNonAdmin
          "srv" "db").created = some (qd, ws)
        ∧ qd.status = "waiting_for_approval" ∧ qd.query = "SELECT 1"
        ∧ qd.user_id = userNonAdmin.id ∧ ws.user_id = userNonAdmin.id) :=
  C7_risky_sent_for_approval envAllOk analyzerBoth 1000 "SELECT 1" userNonAdmin
    "srv" "db" 1 rfl rfl rfl rfl rfl

/-! ## Claim C10 — execute_query never raises -/

/-- **C10, counterexample.** The claim says `execute_query` never
propagates an exception.  But when the target database raises and the
`update_log` call inside the outer `except` handler raises as well
(`envLogsDown`), the handler's exception escapes to the caller. -/
theorem C10_no_raise_counterexample :
    (execute_query envLogsDown analyzerNone 1000 "SELECT 1" userNonAdmin
        "srv" "db").result = Except.error "app db down" :=
  rfl

/-- **C10, amended.** Provided the `update_log` call inside the outer
exception handler does not itself raise, `execute_query` propagates no
exception: it returns a dict whose `response_type` is `"data"`, or
`"error"` with empty data and an error string. -/
theorem C10_no_raise_amended (env : QueryEnv) (analyzer : QueryAnalyzer)
    (limit : Nat) (query : String) (user : User)
    (server_name database_name : String)
    (h : ∀ e, env.update_log_on_error e = Except.ok ()) :
    ∃ r, (execute_query env analyzer limit query user server_name
        database_name).result = Except.ok r
      ∧ (r.response_type = "data"
         ∨ (r.response_type = "error" ∧ r.data = [] ∧ r.error.isSome = true)) := by
  rw [execute_query]
  cases hcl : env.create_log with
  | error e => exact ⟨_, rfl, Or.inr ⟨rfl, rfl, rfl⟩⟩
  | ok lid =>
      dsimp only
      by_cases hrisky : (!(analyzer.analyze query).canRun && !user.is_admin) = true
      · rw [if_pos hrisky]
        cases hur : env.update_log_reject with
        | error e => simp only [h]; exact ⟨_, rfl, Or.inr ⟨rfl, rfl, rfl⟩⟩
        | ok u => exact ⟨_, rfl, Or.inr ⟨rfl, rfl, rfl⟩⟩
      · rw [if_neg hrisky]
        cases hdb : env.db_exec with
        | error e => simp only [h]; exact ⟨_, rfl, Or.inr ⟨rfl, rfl, rfl⟩⟩
        | ok fetched =>
            dsimp only
            cases hus : env.update_log_success with
            | error e => simp only [h]; exact ⟨_, rfl, Or.inr ⟨rfl, rfl, rfl⟩⟩
            | ok u => exact ⟨_, rfl, Or.inl rfl⟩

/-- Witness for C10 (amended): with `envAllOk` the exception-handler log
update always succeeds, so a well-formed dict comes back. -/
theorem C10_no_raise_amended_witness :
    ∃ r, (execute_query envAllOk analyzerNone 1000 "SELECT 1" userNonAdmin
        "srv" "db").result = Except.ok r
      ∧ (r.response_type = "data"
         ∨ (r.response_type = "error" ∧ r.data = [] ∧ r.error.isSome = true)) :=
  C10_no_raise_amended envAllOk analyzerNone 1000 "SELECT 1" userNonAdmin
    "srv" "db" (fun _ => rfl)


/-! ## Supporting lemmas: execute_workspace -/

/-- The post-gate block never touches the `QueryData` table. -/
theorem execute_workspace_run_query_datas (env : WsEnv)
    (query_datas : List WsQueryData) (sc1 : SessionCache) (limit : Nat) :
    (execute_workspace_run env query_datas sc1 limit).query_datas
      = query_datas := by
  rw [execute_workspace_run]
  cases env.create_log with
  | error e => rfl
  | ok lid =>
      dsimp only
      cases env.db_exec with
      | error e =>
          dsimp only
          cases env.update_log_on_error e <;> rfl
      | ok fetched =>
          dsimp only
          cases env.update_log_success with
          | error e =>
              dsimp only
              cases env.update_log_on_error e <;> rfl
          | ok u => rfl

/-- Once the log entry is created, the post-gate block always reaches the
target database. -/
theorem execute_workspace_run_executed (env : WsEnv)
    (query_datas : List WsQueryData) (sc1 : SessionCache) (limit : Nat)
    (lid : Nat) (hcl : env.create_log = Except.ok lid) :
    (execute_workspace_run env query_datas sc1 limit).executed_on_target
      = true := by
  rw [execute_workspace_run, hcl]
  dsimp only
  cases env.db_exec with
  | error e =>
      dsimp only
      cases env.update_log_on_error e <;> rfl
  | ok fetched =>
      dsimp only
      cases env.update_log_success with
      | error e =>
          dsimp only
          cases env.update_log_on_error e <;> rfl
      | ok u => rfl

/-- When the target database raises and the failure log update succeeds,
the post-gate block surfaces the error and finalizes the log with it. -/
theorem execute_workspace_run_db_error (env : WsEnv)
    (query_datas : List WsQueryData) (sc1 : SessionCache) (limit : Nat)
    (lid : Nat) (e : String) (hcl : env.create_log = Except.ok lid)
    (hdb : env.db_exec = Except.error e)
    (hupd : env.update_log_on_error e = Except.ok ()) :
    (execute_workspace_run env query_datas sc1 limit).result
      = Except.ok (errorResponse e)
    ∧ (execute_workspace_run env query_datas sc1 limit).log_updates
      = [{ log_id := lid, successfull := false, error := some e,
           row_count := none }] := by
  rw [execute_workspace_run, hcl, hdb]
  simp [hupd]

/-- When the target database returns rows and the success log update
succeeds, the post-gate block returns the data response and finalizes the
log with `successfull=True` and the row count.  (`fetchmany(size=limit)`
returns at most `limit` rows, so the truncation branch is provably
dead.) -/
theorem execute_workspace_run_db_success (env : WsEnv)
    (query_datas : List WsQueryData) (sc1 : SessionCache) (limit : Nat)
    (lid : Nat) (rows : List Row) (hcl : env.create_log = Except.ok lid)
    (hdb : env.db_exec = Except.ok rows)
    (hus : env.update_log_success = Except.ok ()) :
    (execute_workspace_run env query_datas sc1 limit).result
      = Except.ok { response_type := "data", data := rows.take limit,
                    message := some (toString (rows.take limit).length
                      ++ " rows affected"),
                    error := none }
    ∧ (execute_workspace_run env query_datas sc1 limit).log_updates
      = [{ log_id := lid, successfull := true, error := none,
           row_count := some (rows.take limit).length }] := by
  have hle : ¬ (limit < (rows.take limit).length) := by
    have := List.length_take_le limit rows
    omega
  rw [execute_workspace_run, hcl]
  dsimp only
  rw [hdb]
  dsimp only
  rw [hus]
  dsimp only
  simp [hle]

/-- Reduction of `execute_workspace` up to the approval gate, for a valid
session and successfully loaded workspace and query records. -/
theorem execute_workspace_gate (env : WsEnv) (workspaces : List WsWorkspace)
    (query_datas : List WsQueryData) (sc : SessionCache)
    (now session_timeout : Int) (limit : Nat) (user : User) (wid : Int)
    (pw : String) (w : WsWorkspace) (qd : WsQueryData)
    (hvalid : (sc.is_valid now user.id session_timeout).2 = true)
    (hpw : SessionCache.get_password ((sc.is_valid now user.id session_timeout).1)
        user.id = Except.ok pw)
    (hws : workspaces.find? (fun x => x.id == wid) = some w)
    (hqd : query_datas.find? (fun q => w.query_id == some q.id) = some qd) :
    execute_workspace env workspaces query_datas sc now session_timeout limit
        user wid
    = if (!(w.show_results.getD false)
          || (qd.status != "approved_with_results")) = true
      then { result := Except.ok
              (errorResponse "This workspace is not approved for execution"),
             executed_on_target := false, query_datas := query_datas,
             session := (sc.is_valid now user.id session_timeout).1,
             log_updates := [] }
      else execute_workspace_run env query_datas
             ((sc.is_valid now user.id session_timeout).1) limit := by
  rw [execute_workspace, if_pos hvalid, hpw]
  simp only [hws, hqd]

/-- `execute_workspace` leaves the `QueryData` table unchanged in every
run. -/
theorem execute_workspace_query_datas (env : WsEnv)
    (workspaces : List WsWorkspace) (query_datas : List WsQueryData)
    (sc : SessionCache) (now session_timeout : Int) (limit : Nat)
    (user : User) (wid : Int) :
    (execute_workspace env workspaces query_datas sc now session_timeout limit
        user wid).query_datas = query_datas := by
  rw [execute_workspace]
  split
  · split
    · rfl
    · split
      · rfl
      · split
        · rfl
        · split
          · rfl
          · exact execute_workspace_run_query_datas env query_datas _ limit
  · rfl

/-! ## Claim C1 — status after executeApproved -/

/-- **C1, counterexample.** The claim says `execute_workspace` sets the
QueryRecord status to `approved_and_executed` on success or
`approval_execution_failed` on failure, never leaving the prior status in
place.  In this concrete run the target database raises
`"deadlock detected"`: the failure is surfaced as an error response, but
the `QueryData` table comes back unchanged — the record still carries its
prior status `approved_with_results`. -/
theorem C1_status_transition_counterexample :
    (execute_workspace wsEnvDbFail [wsApproved] [qdApprovedWith] sessionStored
        0 60 1000 userNonAdmin 10).result
      = Except.ok (errorResponse "deadlock detected")
    ∧ (execute_workspace wsEnvDbFail [wsApproved] [qdApprovedWith] sessionStored
        0 60 1000 userNonAdmin 10).query_datas = [qdApprovedWith]
    ∧ qdApprovedWith.status = "approved_with_results" :=
  ⟨rfl, rfl, rfl⟩

/-- **C1, amended.** `execute_workspace` never modifies any `QueryData`
record: the table (and so every record's status) after the call equals the
table before it, on success and failure alike.  The outcome is recorded in
the `ExecutionLog` entry instead: a failing execution (whose failure-path
log update succeeds) surfaces the error response to the caller and
finalizes the log with `successfull=False` and the error text; a
successful execution returns the data response and finalizes the log with
`successfull=True` and the row count. -/
theorem C1_status_unchanged_amended (env : WsEnv)
    (workspaces : List WsWorkspace) (query_datas : List WsQueryData)
    (sc : SessionCache) (now session_timeout : Int) (limit : Nat)
    (user : User) (wid : Int) :
    (execute_workspace env workspaces query_datas sc now session_timeout limit
        user wid).query_datas = query_datas
    ∧ (∀ pw w qd lid e,
        (sc.is_valid now user.id session_timeout).2 = true →
        SessionCache.get_password ((sc.is_valid now user.id session_timeout).1)
          user.id = Except.ok pw →
        workspaces.find? (fun x => x.id == wid) = some w →
        query_datas.find? (fun q => w.query_id == some q.id) = some qd →
        w.show_results = some true →
        qd.status = "approved_with_results" →
        env.create_log = Except.ok lid →
        env.db_exec = Except.error e →
        env.update_log_on_error e = Except.ok () →
        (execute_workspace env workspaces query_datas sc now session_timeout
            limit user wid).result = Except.ok (errorResponse e)
        ∧ (execute_workspace env workspaces query_datas sc now session_timeout
            limit user wid).log_updates
          = [{ log_id := lid, successfull := false, error := some e,
               row_count := none }])
    ∧ (∀ pw w qd lid rows,
        (sc.is_valid now user.id session_timeout).2 = true →
        SessionCache.get_password ((sc.is_valid now user.id session_timeout).1)
          user.id = Except.ok pw →
        workspaces.find? (fun x => x.id == wid) = some w →
        query_datas.find? (fun q => w.query_id == some q.id) = some qd →
        w.show_results = some true →
        qd.status = "approved_with_results" →
        env.create_log = Except.ok lid →
        env.db_exec = Except.ok rows →
        env.update_log_success = Except.ok () →
        (execute_workspace env workspaces query_datas sc now session_timeout
            limit user wid).result
          = Except.ok { response_type := "data", data := rows.take limit,
                        message := some (toString (rows.take limit).length
                          ++ " rows affected"),
                        error := none }
        ∧ (execute_workspace env workspaces query_datas sc now session_timeout
            limit user wid).log_updates
          = [{ log_id := lid, successfull := true, error := none,
               row_count := some (rows.take limit).length }]) := by
  refine ⟨execute_workspace_query_datas env workspaces query_datas sc now
    session_timeout limit user wid, ?_, ?_⟩
  · intro pw w qd lid e hvalid hpw hws hqd hshow hstatus hcl hdb hupd
    rw [execute_workspace_gate env workspaces query_datas sc now session_timeout
      limit user wid pw w qd hvalid hpw hws hqd]
    rw [if_neg (by simp [hshow, hstatus])]
    exact execute_workspace_run_db_error env query_datas _ limit lid e hcl hdb hupd
  · intro pw w qd lid rows hvalid hpw hws hqd hshow hstatus hcl hdb hus
    rw [execute_workspace_gate env workspaces query_datas sc now session_timeout
      limit user wid pw w qd hvalid hpw hws hqd]
    rw [if_neg (by simp [hshow, hstatus])]
    exact execute_workspace_run_db_success env query_datas _ limit lid rows
      hcl hdb hus

/-- Witness for C1 (amended): a concrete failing run against `wsEnvDbFail`
(log finalized with the error) and a concrete successful run against
`wsEnvAllOk` (log finalized with `successfull=True` and the row count),
every hypothesis discharged by evaluation. -/
theorem C1_status_unchanged_amended_witness :
    (execute_workspace wsEnvDbFail [wsApproved] [qdApprovedWith] sessionStored
        0 60 1000 userNonAdmin 10).query_datas = [qdApprovedWith]
    ∧ (execute_workspace wsEnvDbFail [wsApproved] [qdApprovedWith] sessionStored
        0 60 1000 userNonAdmin 10).log_updates
      = [{ log_id := 7, successfull := false, error := some "deadlock detected",
           row_count := none }]
    ∧ (execute_workspace wsEnvAllOk [wsApproved] [qdApprovedWith] sessionStored
        0 60 1000 userNonAdmin 10).log_updates
      = [{ log_id := 7, successfull := true, error := none,
           row_count := some 0 }] := by
  have h := C1_status_unchanged_amended wsEnvDbFail [wsApproved] [qdApprovedWith]
    sessionStored 0 60 1000 userNonAdmin 10
  have h2 := h.2.1 "hunter2" wsApproved qdApprovedWith 7 "deadlock detected"
    rfl rfl rfl rfl rfl rfl rfl rfl rfl
  have hs := C1_status_unchanged_amended wsEnvAllOk [wsApproved] [qdApprovedWith]
    sessionStored 0 60 1000 userNonAdmin 10
  have hs2 := hs.2.2 "hunter2" wsApproved qdApprovedWith 7 []
    rfl rfl rfl rfl rfl rfl rfl rfl rfl
  exact ⟨h.1, h2.2, hs2.2⟩

/-! ## Claim C4 — the approval gate of execute_workspace -/

/-- **C4, counterexample.** The claim allows execution when the status is
`approved` (with `show_results` true).  In this run the workspace has
`show_results = true`, the record's status is `approved` and the session
is valid — yet `execute_workspace` refuses with the not-approved error and
never touches the target database: the code demands exactly
`approved_with_results`. -/
theorem C4_gate_counterexample :
    (execute_workspace wsEnvAllOk [wsApproved] [qdApprovedOnly] sessionStored
        0 60 1000 userNonAdmin 10).result
      = Except.ok (errorResponse "This workspace is not approved for execution")
    ∧ (execute_workspace wsEnvAllOk [wsApproved] [qdApprovedOnly] sessionStored
        0 60 1000 userNonAdmin 10).executed_on_target = false
    ∧ qdApprovedOnly.status = "approved"
    ∧ wsApproved.show_results = some true :=
  ⟨rfl, rfl, rfl, rfl⟩

/-- **C4, amended.** For a valid session, an existing workspace and query
record, and a working log write, `execute_workspace` runs the stored query
iff the record's status is exactly `approved_with_results` and
`show_results` is true; in every other case — in particular status
`approved` or `waiting_for_approval` — it returns the not-approved error
without executing. -/
theorem C4_gate_amended (env : WsEnv) (workspaces : List WsWorkspace)
    (query_datas : List WsQueryData) (sc : SessionCache)
    (now session_timeout : Int) (limit : Nat) (user : User) (wid : Int)
    (pw : String) (w : WsWorkspace) (qd : WsQueryData) (lid : Nat)
    (hvalid : (sc.is_valid now user.id session_timeout).2 = true)
    (hpw : SessionCache.get_password ((sc.is_valid now user.id session_timeout).1)
        user.id = Except.ok pw)
    (hws : workspaces.find? (fun x => x.id == wid) = some w)
    (hqd : query_datas.find? (fun q => w.query_id == some q.id) = some qd)
    (hcl : env.create_log = Except.ok lid) :
    ((execute_workspace env workspaces query_datas sc now session_timeout limit
        user wid).executed_on_target = true
      ↔ (w.show_results = some true ∧ qd.status = "approved_with_results"))
    ∧ (¬ (w.show_results = some true ∧ qd.status = "approved_with_results") →
        (execute_workspace env workspaces query_datas sc now session_timeout
            limit user wid).result
          = Except.ok (errorResponse "This workspace is not approved for execution")
        ∧ (execute_workspace env workspaces query_datas sc now session_timeout
            limit user wid).executed_on_target = false) := by
  rw [execute_workspace_gate env workspaces query_datas sc now session_timeout
    limit user wid pw w qd hvalid hpw hws hqd]
  by_cases hgate : w.show_results = some true ∧ qd.status = "approved_with_results"
  · rw [if_neg (by simp [hgate.1, hgate.2])]
    have hrun := execute_workspace_run_executed env query_datas
      ((sc.is_valid now user.id session_timeout).1) limit lid hcl
    exact ⟨⟨fun _ => hgate, fun _ => hrun⟩, fun hc => absurd hgate hc⟩
  · have hcond : (!(w.show_results.getD false)
        || (qd.status != "approved_with_results")) = true := by
      rcases not_and_or.mp hgate with hs | hs
      · have hgd : w.show_results.getD false = false := by
          cases hsr : w.show_results with
          | none => rfl
          | some b =>
              cases b
              · rfl
              · exact absurd hsr hs
        simp [hgd]
      · simp [bne_iff_ne, hs]
    rw [if_pos hcond]
    refine ⟨?_, fun _ => ⟨rfl, rfl⟩⟩
    constructor
    · intro hfalse
      cases hfalse
    · intro hc
      exact absurd hc hgate

/-- Witness for C4 (amended): with status `approved_with_results` and
`show_results = true` the gate opens and the stored query reaches the
target database. -/
theorem C4_gate_amended_witness :
    (execute_workspace wsEnvAllOk [wsApproved] [qdApprovedWith] sessionStored
        0 60 1000 userNonAdmin 10).executed_on_target = true := by
  have h := C4_gate_amended wsEnvAllOk [wsApproved] [qdApprovedWith]
    sessionStored 0 60 1000 userNonAdmin 10 "hunter2" wsApproved qdApprovedWith
    7 rfl rfl rfl rfl rfl
  exact h.1.mpr ⟨rfl, rfl⟩

end WebQuery
